import Mathlib

/-!
Verification of the lung_detection_module detection pipeline.

The repository analyzes grayscale chest-radiograph images: preprocessing
(`LungImageProcessor.preprocess_image`, `CovidImageAnalyzer.enhanced_covid_preprocessing`),
two candidate detectors (`detect_nodules` via a parameterized blob detector and
`analyze_regions` via adaptive thresholding plus contour filtering), per-image
result recording (`analyze_single_image`), and batch aggregation
(`analyze_category`, `create_comparison_report`, `get_all_category_images`).

Images are embedded as grids of exact rational samples.  The floating-point
constant `np.pi` is embedded as the exact rational value of the IEEE-754
double nearest pi, so every numeric comparison performed by the code is
mirrored exactly.  Calls into the imaging library (adaptive thresholding,
contour extraction, blob component extraction) are embedded by recording the
arguments the source passes and by quantifying over the candidate lists the
library returns; the geometric filters applied to those candidates are
translated literally from the source.
-/

namespace LungDetection

/-- A grayscale image: a list of rows of rational intensity samples
(`IntensityGrid` in the data model). -/
def Grid : Type := List (List ℚ)

instance : DecidableEq Grid := by
  unfold Grid
  infer_instance

/-- The flattened pixel values of a grid. -/
def gridVals (g : Grid) : List ℚ := g.flatten

/-- Exact rational value of the IEEE-754 double `np.pi` used by the source
(`np.pi = 884279719003555 / 2^48`). -/
def npPi : ℚ := 884279719003555 / 281474976710656

/-! ## Contour detector: `LungImageProcessor.analyze_regions`
(src/image_processor.py lines 67-88) -/

/-- Adaptive-threshold method argument (cv2 `ADAPTIVE_THRESH_MEAN_C` /
`ADAPTIVE_THRESH_GAUSSIAN_C`). -/
inductive AdaptiveMethod : Type
  | meanC
  | gaussianC
deriving DecidableEq

/-- Threshold type argument (cv2 `THRESH_BINARY` / `THRESH_BINARY_INV`). -/
inductive ThresholdType : Type
  | binary
  | binaryInv
deriving DecidableEq

/-- Contour retrieval mode argument (cv2 `RETR_EXTERNAL` retrieves only the
outermost boundary contours; `RETR_LIST` / `RETR_TREE` / `RETR_CCOMP` also
retrieve nested ones).  `retrExt` stands for `RETR_EXTERNAL`. -/
inductive RetrievalMode : Type
  | retrExt
  | retrList
  | retrTree
  | retrCComp
deriving DecidableEq

/-- The arguments `analyze_regions` passes to the binarization and contour
extraction calls. -/
structure AnalyzeRegionsCalls : Type where
  threshMaxValue : ℚ
  threshMethod : AdaptiveMethod
  threshType : ThresholdType
  blockSize : ℕ
  offsetC : ℚ
  retrieval : RetrievalMode
deriving DecidableEq

/-- Arguments recorded from src/image_processor.py lines 69-73:
`cv2.adaptiveThreshold(image, 255, cv2.ADAPTIVE_THRESH_GAUSSIAN_C,
cv2.THRESH_BINARY, 11, 2)` followed by
`cv2.findContours(binary, cv2.RETR_EXTERNAL, cv2.CHAIN_APPROX_SIMPLE)`. -/
def analyzeRegionsCalls : AnalyzeRegionsCalls :=
  { threshMaxValue := 255
    threshMethod := AdaptiveMethod.gaussianC
    threshType := ThresholdType.binary
    blockSize := 11
    offsetC := 2
    retrieval := RetrievalMode.retrExt }

/-- A contour as returned by the contour extraction call, carrying the two
measurements the source takes of it: `cv2.contourArea` (nonnegative) and
`cv2.arcLength` (a sum of point distances, nonnegative). -/
structure Contour : Type where
  area : ℚ
  perimeter : ℚ
  area_nonneg : 0 ≤ area
  perim_nonneg : 0 ≤ perimeter

/-- Circularity as computed at src/image_processor.py line 84:
`4 * np.pi * area / (perimeter ** 2)`. -/
def circularity (c : Contour) : ℚ := 4 * npPi * c.area / c.perimeter ^ 2

/-- The retention test of the `analyze_regions` loop, src/image_processor.py
lines 77-87: keep a contour iff `50 < area < 1000`, the perimeter is positive
(the guard before dividing), and the circularity exceeds `0.5`. -/
def contourKeep (c : Contour) : Bool :=
  decide (50 < c.area) && decide (c.area < 1000) &&
    (decide (0 < c.perimeter) && decide ((0.5 : ℚ) < circularity c))

/-- Shallow embedding of `analyze_regions` after the library calls: the loop
over the extracted contours appends exactly those passing `contourKeep`. -/
def analyze_regions (cs : List Contour) : List Contour :=
  cs.filter contourKeep

/-- The retention test as the claim states it: area strictly between 50 and
1000 and circularity strictly greater than 0.5 (no separate perimeter guard). -/
def contourKeepClaimed (c : Contour) : Bool :=
  decide (50 < c.area) && decide (c.area < 1000) &&
    decide ((0.5 : ℚ) < circularity c)

lemma contourKeep_eq_claimed (c : Contour) : contourKeep c = contourKeepClaimed c := by
  unfold contourKeep contourKeepClaimed
  rcases eq_or_lt_of_le c.perim_nonneg with h0 | hpos
  · have hsq : c.perimeter ^ 2 = 0 := by rw [← h0]; ring
    have hcirc : circularity c = 0 := by
      unfold circularity
      rw [hsq, div_zero]
    rw [hcirc, ← h0]
    simp
    norm_num
  · have h1 : decide (0 < c.perimeter) = true := decide_eq_true hpos
    rw [h1]
    simp [Bool.and_assoc]

lemma contourKeep_true_iff (c : Contour) :
    contourKeep c = true ↔
      (50 < c.area ∧ c.area < 1000) ∧ 0 < c.perimeter ∧ (0.5 : ℚ) < circularity c := by
  unfold contourKeep
  simp [and_assoc]

end LungDetection

namespace LungDetection

/-- C4: the contour detector binarizes with an adaptive threshold of window
11 px and offset 2, extracts external-boundary contours only, and returns
exactly the contours with `50 < area < 1000` and circularity
`4*pi*area/perimeter^2 > 0.5` (the source's extra positive-perimeter guard
changes nothing, since a zero-perimeter contour has circularity 0 under the
division convention and is rejected by both tests). -/
theorem C4_contour_detector_filter :
    analyzeRegionsCalls.blockSize = 11 ∧
    analyzeRegionsCalls.offsetC = 2 ∧
    analyzeRegionsCalls.retrieval = RetrievalMode.retrExt ∧
    ∀ cs : List Contour, analyze_regions cs = cs.filter contourKeepClaimed := by
  refine ⟨rfl, rfl, rfl, ?_⟩
  intro cs
  unfold analyze_regions
  exact List.filter_congr (fun c _ => contourKeep_eq_claimed c)

end LungDetection

namespace LungDetection

/-- C6 counterexample: the contour with `contourArea = 100` and
`arcLength = 20` is retained by `analyze_regions`, yet its computed
circularity `4*pi*100/20^2 = pi` exceeds 1 — the source applies no clipping
to the shape metric. -/
theorem C6_counterexample_no_clipping :
    contourKeep ⟨100, 20, by norm_num, by norm_num⟩ = true ∧
    1 < circularity ⟨100, 20, by norm_num, by norm_num⟩ := by
  constructor
  · rw [contourKeep_true_iff]
    refine ⟨⟨by norm_num, by norm_num⟩, by norm_num, ?_⟩
    show (0.5 : ℚ) < 4 * npPi * 100 / 20 ^ 2
    rw [npPi]
    norm_num
  · show (1 : ℚ) < 4 * npPi * 100 / 20 ^ 2
    rw [npPi]
    norm_num

/-- C6 (amended): the source clips nothing; every contour retained by
`analyze_regions` has circularity strictly greater than 0.5, and the upper
bound 1 holds exactly when the contour satisfies the polygon isoperimetric
inequality `4*pi*area <= perimeter^2`, a geometric side condition the code
never checks. -/
theorem C6_contour_shape_metric (c : Contour) (hkeep : contourKeep c = true)
    (hiso : 4 * npPi * c.area ≤ c.perimeter ^ 2) :
    (0.5 : ℚ) < circularity c ∧ circularity c ≤ 1 := by
  obtain ⟨-, hp, hcirc⟩ := (contourKeep_true_iff c).mp hkeep
  refine ⟨hcirc, ?_⟩
  have hsq : 0 < c.perimeter ^ 2 := by positivity
  rw [circularity, div_le_one hsq]
  exact hiso

/-- Witness for C6 (amended) at the contour with area 100 and perimeter 40. -/
theorem C6_contour_shape_metric_witness :
    (0.5 : ℚ) < circularity ⟨100, 40, by norm_num, by norm_num⟩ ∧
      circularity ⟨100, 40, by norm_num, by norm_num⟩ ≤ 1 := by
  refine C6_contour_shape_metric ⟨100, 40, by norm_num, by norm_num⟩ ?_ ?_
  · rw [contourKeep_true_iff]
    refine ⟨⟨by norm_num, by norm_num⟩, by norm_num, ?_⟩
    show (0.5 : ℚ) < 4 * npPi * 100 / 40 ^ 2
    rw [npPi]
    norm_num
  · show 4 * npPi * 100 ≤ (40 : ℚ) ^ 2
    rw [npPi]
    norm_num

/-! ## Blob detector: `LungImageProcessor.detect_nodules`
(src/image_processor.py lines 43-65) -/

/-- The `cv2.SimpleBlobDetector_Params` fields set by `detect_nodules`. -/
structure BlobParams : Type where
  filterByArea : Bool
  minArea : ℚ
  maxArea : ℚ
  filterByCircularity : Bool
  minCircularity : ℚ
  filterByConvexity : Bool
  minConvexity : ℚ
deriving DecidableEq

/-- Parameters built at src/image_processor.py lines 45-58:
area filter on with `minArea = pi*min_radius^2`, `maxArea = pi*max_radius^2`,
circularity filter on with minimum 0.5, convexity filter on with minimum 0.8. -/
def detectNodulesParams (min_radius max_radius : ℚ) : BlobParams :=
  { filterByArea := true
    minArea := npPi * min_radius ^ 2
    maxArea := npPi * max_radius ^ 2
    filterByCircularity := true
    minCircularity := 0.5
    filterByConvexity := true
    minConvexity := 0.8 }

/-- A connected component examined by the blob detector, carrying its area,
perimeter and convex-hull area measurements. -/
structure Component : Type where
  area : ℚ
  perimeter : ℚ
  hullArea : ℚ
deriving DecidableEq

/-- Circularity of a component, `4*pi*area/perimeter^2`. -/
def compCircularity (c : Component) : ℚ := 4 * npPi * c.area / c.perimeter ^ 2

/-- Convexity of a component, component area over convex-hull area. -/
def compConvexity (c : Component) : ℚ := c.area / c.hullArea

/-- Modelled from the spec: the per-component filtering inside
`cv2.SimpleBlobDetector.detect`, whose implementation lives in the OpenCV
library and not in this repository.  Spec section 4.2: extract connected
components and retain those whose area falls within `[minArea, maxArea]`,
whose circularity is at least the minimum and whose convexity is at least the
minimum, each filter applied when its flag is enabled.  `comps` stands for
the connected components the library extracts from the processed grid. -/
def blobDetect (p : BlobParams) (comps : List Component) : List Component :=
  comps.filter (fun c =>
    (!p.filterByArea || (decide (p.minArea ≤ c.area) && decide (c.area ≤ p.maxArea))) &&
    ((!p.filterByCircularity || decide (p.minCircularity ≤ compCircularity c)) &&
     (!p.filterByConvexity || decide (p.minConvexity ≤ compConvexity c))))

/-- Shallow embedding of `detect_nodules`: build the parameter block from the
radius bounds (defaults 3 and 20 at the call sites) and run the detector on
the components of the processed grid. -/
def detect_nodules (comps : List Component) (min_radius max_radius : ℚ) : List Component :=
  blobDetect (detectNodulesParams min_radius max_radius) comps

end LungDetection

namespace LungDetection

/-- C5: every candidate returned by the blob detector with bounds
`min_radius` and `max_radius` has area within
`[pi*min_radius^2, pi*max_radius^2]`, circularity at least 0.5 and convexity
at least 0.8. -/
theorem C5_blob_candidate_filters (comps : List Component) (min_radius max_radius : ℚ)
    (c : Component) (hc : c ∈ detect_nodules comps min_radius max_radius) :
    (npPi * min_radius ^ 2 ≤ c.area ∧ c.area ≤ npPi * max_radius ^ 2) ∧
    (0.5 : ℚ) ≤ compCircularity c ∧ (0.8 : ℚ) ≤ compConvexity c := by
  rw [detect_nodules, blobDetect] at hc
  obtain ⟨-, hpred⟩ := List.mem_filter.mp hc
  simp only [detectNodulesParams, Bool.not_true, Bool.false_or, Bool.and_eq_true,
    decide_eq_true_eq] at hpred
  exact ⟨⟨hpred.1.1, hpred.1.2⟩, hpred.2.1, hpred.2.2⟩

/-- Witness for C5 at the component with area 100, perimeter 40 and
convex-hull area 110, detected with the default radius bounds 3 and 20. -/
theorem C5_blob_candidate_filters_witness :
    (npPi * 3 ^ 2 ≤ (100 : ℚ) ∧ (100 : ℚ) ≤ npPi * 20 ^ 2) ∧
    (0.5 : ℚ) ≤ compCircularity ⟨100, 40, 110⟩ ∧
    (0.8 : ℚ) ≤ compConvexity ⟨100, 40, 110⟩ := by
  refine C5_blob_candidate_filters [⟨100, 40, 110⟩] 3 20 ⟨100, 40, 110⟩ ?_
  unfold detect_nodules blobDetect
  refine List.mem_filter.mpr ⟨List.mem_singleton.mpr rfl, ?_⟩
  simp only [detectNodulesParams, Bool.not_true, Bool.false_or, Bool.and_eq_true,
    decide_eq_true_eq, compCircularity, compConvexity]
  norm_num [npPi]

end LungDetection

namespace LungDetection

/-! ## Normalization: `normalize_image` (src/utils.py lines 27-29) -/

/-- Minimum sample of a list of rationals (0 for the empty list). -/
def listMin : List ℚ → ℚ
  | [] => 0
  | x :: xs => xs.foldl min x

/-- Maximum sample of a list of rationals (0 for the empty list). -/
def listMax : List ℚ → ℚ
  | [] => 0
  | x :: xs => xs.foldl max x

lemma foldl_min_le_init (a : ℚ) (l : List ℚ) : l.foldl min a ≤ a := by
  induction l generalizing a with
  | nil => simp
  | cons y ys ih =>
      simp only [List.foldl_cons]
      exact le_trans (ih (min a y)) (min_le_left a y)

lemma foldl_min_le_mem (a x : ℚ) (l : List ℚ) (hx : x ∈ l) : l.foldl min a ≤ x := by
  induction l generalizing a with
  | nil => cases hx
  | cons y ys ih =>
      simp only [List.foldl_cons]
      rcases List.mem_cons.mp hx with rfl | h
      · exact le_trans (foldl_min_le_init (min a x) ys) (min_le_right a x)
      · exact ih (min a y) h

lemma init_le_foldl_max (a : ℚ) (l : List ℚ) : a ≤ l.foldl max a := by
  induction l generalizing a with
  | nil => simp
  | cons y ys ih =>
      simp only [List.foldl_cons]
      exact le_trans (le_max_left a y) (ih (max a y))

lemma mem_le_foldl_max (a x : ℚ) (l : List ℚ) (hx : x ∈ l) : x ≤ l.foldl max a := by
  induction l generalizing a with
  | nil => cases hx
  | cons y ys ih =>
      simp only [List.foldl_cons]
      rcases List.mem_cons.mp hx with rfl | h
      · exact le_trans (le_max_right a x) (init_le_foldl_max (max a x) ys)
      · exact ih (max a y) h

lemma listMin_le_of_mem {x : ℚ} {l : List ℚ} (hx : x ∈ l) : listMin l ≤ x := by
  cases l with
  | nil => cases hx
  | cons y ys =>
      rcases List.mem_cons.mp hx with rfl | h
      · exact foldl_min_le_init x ys
      · exact foldl_min_le_mem y x ys h

lemma le_listMax_of_mem {x : ℚ} {l : List ℚ} (hx : x ∈ l) : x ≤ listMax l := by
  cases l with
  | nil => cases hx
  | cons y ys =>
      rcases List.mem_cons.mp hx with rfl | h
      · exact init_le_foldl_max x ys
      · exact mem_le_foldl_max y x ys h

lemma foldl_min_const (a c : ℚ) (l : List ℚ) (ha : a = c) (hl : ∀ v ∈ l, v = c) :
    l.foldl min a = c := by
  induction l generalizing a with
  | nil => exact ha
  | cons y ys ih =>
      simp only [List.foldl_cons]
      refine ih (min a y) ?_ (fun v hv => hl v (List.mem_cons_of_mem _ hv))
      rw [ha, hl y (List.mem_cons_self _ _), min_self]

lemma foldl_max_const (a c : ℚ) (l : List ℚ) (ha : a = c) (hl : ∀ v ∈ l, v = c) :
    l.foldl max a = c := by
  induction l generalizing a with
  | nil => exact ha
  | cons y ys ih =>
      simp only [List.foldl_cons]
      refine ih (max a y) ?_ (fun v hv => hl v (List.mem_cons_of_mem _ hv))
      rw [ha, hl y (List.mem_cons_self _ _), max_self]

lemma gridVals_map (f : ℚ → ℚ) (g : Grid) :
    gridVals (List.map (List.map f) g) = (gridVals g).map f := by
  unfold gridVals
  induction g with
  | nil => rfl
  | cons r rs ih =>
      rw [List.map_cons, List.flatten_cons, ih, List.flatten_cons, List.map_append]

/-- Shallow embedding of `normalize_image` (src/utils.py lines 27-29), also the
normalize step of `preprocess_image` (src/image_processor.py line 18) and of
`enhanced_covid_preprocessing` (src/covid_analyzer.py line 71):
`cv2.normalize(image.astype(float), None, 0.0, 1.0, cv2.NORM_MINMAX)`.
Modelled from the spec for the library internals: `cv2.NORM_MINMAX` maps each
sample `v` to `(v - min) * scale` with `scale = (1 - 0)/(max - min)` when
`max > min` and `scale = 0` for a flat source, so a flat grid maps to the
all-zero grid with no division by zero. -/
def normalize_image (g : Grid) : Grid :=
  let lo := listMin (gridVals g)
  let hi := listMax (gridVals g)
  if hi = lo then List.map (List.map (fun _ => (0 : ℚ))) g
  else List.map (List.map (fun v => (v - lo) / (hi - lo))) g

end LungDetection

namespace LungDetection

/-- C7: every sample of a normalized grid lies in [0, 1], and a flat grid
(all samples equal) normalizes to the all-zero grid, the degenerate case
taking the scale-zero branch rather than dividing by zero. -/
theorem C7_normalize_bounds (g : Grid) :
    (∀ v ∈ gridVals (normalize_image g), 0 ≤ v ∧ v ≤ 1) ∧
    (∀ c : ℚ, (∀ v ∈ gridVals g, v = c) → ∀ v ∈ gridVals (normalize_image g), v = 0) := by
  constructor
  · intro v hv
    unfold normalize_image at hv
    by_cases hflat : listMax (gridVals g) = listMin (gridVals g)
    · rw [if_pos hflat, gridVals_map] at hv
      obtain ⟨w, -, rfl⟩ := List.mem_map.mp hv
      norm_num
    · rw [if_neg hflat, gridVals_map] at hv
      obtain ⟨w, hw, rfl⟩ := List.mem_map.mp hv
      have hlo : listMin (gridVals g) ≤ w := listMin_le_of_mem hw
      have hhi : w ≤ listMax (gridVals g) := le_listMax_of_mem hw
      have hlt : listMin (gridVals g) < listMax (gridVals g) :=
        lt_of_le_of_ne (le_trans hlo hhi) (Ne.symm hflat)
      have hpos : 0 < listMax (gridVals g) - listMin (gridVals g) := by linarith
      constructor
      · apply div_nonneg _ (le_of_lt hpos)
        linarith
      · rw [div_le_one hpos]
        linarith
  · intro c hc v hv
    have hflat : listMax (gridVals g) = listMin (gridVals g) := by
      cases hvals : gridVals g with
      | nil => rfl
      | cons y ys =>
          have hc' : ∀ w ∈ y :: ys, w = c := by rw [← hvals]; exact hc
          have hy : y = c := hc' y (List.mem_cons_self _ _)
          have hys : ∀ w ∈ ys, w = c := fun w hw => hc' w (List.mem_cons_of_mem _ hw)
          show ys.foldl max y = ys.foldl min y
          rw [foldl_max_const y c ys hy hys, foldl_min_const y c ys hy hys]
    unfold normalize_image at hv
    rw [if_pos hflat, gridVals_map] at hv
    obtain ⟨w, -, rfl⟩ := List.mem_map.mp hv
    rfl

/-- Witness for C7 at the flat grid [[4, 4], [4]]: all its samples equal 4
and every sample of its normalization equals 0. -/
theorem C7_normalize_bounds_witness : (0 : ℚ) = 0 :=
  (C7_normalize_bounds [[4, 4], [4]]).2 4 (by decide) 0 (by decide)

end LungDetection

namespace LungDetection

/-! ## Preprocessing error behavior: `LungImageProcessor.preprocess_image`
(src/image_processor.py lines 16-29) -/

/-- Errors a preprocessing call can surface.  `cvError` is the generic
exception class thrown by the imaging library; `invalidImageError` stands for
the `InvalidImageError` class named by the specification, which no module of
this repository defines or raises. -/
inductive PreprocessError : Type
  | cvError
  | invalidImageError
deriving DecidableEq

/-- Shallow embedding of `preprocess_image` (src/image_processor.py lines
16-29).  The source performs no input validation: it normalizes, applies
CLAHE (clip limit 2.0, 8x8 tiles), then a 5x5 Gaussian blur; the CLAHE and
blur transforms are library calls taken as parameters.  Modelled from the
library for the failure case: `cv2.normalize` raises the generic `cv2.error`
when the source array is empty, and every step succeeds on a grid with at
least one sample. -/
def preprocess_image (clahe blur : Grid → Grid) (g : Grid) : Except PreprocessError Grid :=
  if gridVals g = [] then Except.error PreprocessError.cvError
  else Except.ok (blur (clahe (normalize_image g)))

end LungDetection

namespace LungDetection

/-- C3 counterexample: the empty grid makes `preprocess_image` fail with the
generic library error, which is not `InvalidImageError` — no module of the
repository defines, raises or checks for an `InvalidImageError`. -/
theorem C3_counterexample_empty_grid :
    preprocess_image id id [] = Except.error PreprocessError.cvError ∧
    (Except.error PreprocessError.cvError : Except PreprocessError Grid) ≠
      Except.error PreprocessError.invalidImageError := by
  refine ⟨rfl, fun h => ?_⟩
  injection h with h'
  exact PreprocessError.noConfusion h'

/-- C3 (amended): on a grid with no samples (empty, zero width or zero
height) preprocessing fails with the generic library error rather than
`InvalidImageError`, which the code never defines; on any grid with at least
one sample it returns normally with the normalized, enhanced, blurred grid. -/
theorem C3_preprocess_error_behavior (clahe blur : Grid → Grid) (g : Grid) :
    (gridVals g = [] →
      preprocess_image clahe blur g = Except.error PreprocessError.cvError) ∧
    (gridVals g ≠ [] →
      preprocess_image clahe blur g = Except.ok (blur (clahe (normalize_image g)))) := by
  constructor
  · intro h
    unfold preprocess_image
    rw [if_pos h]
  · intro h
    unfold preprocess_image
    rw [if_neg h]

/-- Witness for C3 (amended) at the one-row grid [[1, 2]]. -/
theorem C3_preprocess_error_behavior_witness :
    preprocess_image id id [[1, 2]] = Except.ok (id (id (normalize_image [[1, 2]]))) :=
  (C3_preprocess_error_behavior id id [[1, 2]]).2 (by decide)

/-! ## Downscale step of `CovidImageAnalyzer.enhanced_covid_preprocessing`
(src/covid_analyzer.py lines 60-68) -/

/-- Interpolation argument of `cv2.resize`: `interLinear` is `INTER_LINEAR`
(bilinear), the documented default used when, as at src/covid_analyzer.py
line 68, no interpolation argument is passed; `interArea` is `INTER_AREA`
(area-averaging). -/
inductive Interp : Type
  | interLinear
  | interArea
  | interNearest
  | interCubic
deriving DecidableEq

/-- A resize call: target width and height in pixels and interpolation mode. -/
structure ResizeCall : Type where
  width : ℕ
  height : ℕ
  interpolation : Interp
deriving DecidableEq

/-- Shallow embedding of the downscale step, src/covid_analyzer.py lines
62-68: when the image width exceeds 1024 the code computes `scale = 1024/w`,
`new_width = 1024`, `new_height = int(h * scale)` and calls
`cv2.resize(image, (new_width, new_height))` with the default interpolation;
otherwise it issues no resize call.  `int(h * (1024/w))` truncates the
positive quotient, embedded as natural floor division. -/
def enhancedPreprocessResize (h w : ℕ) : Option ResizeCall :=
  if 1024 < w then some ⟨1024, h * 1024 / w, Interp.interLinear⟩ else none

end LungDetection

namespace LungDetection

/-- C8 counterexample: at a 2048-px-wide, 1000-px-tall image the downscale
step issues its resize with the library default bilinear interpolation, not
the area-averaging interpolation the claim states. -/
theorem C8_counterexample_interpolation :
    (enhancedPreprocessResize 1000 2048).map ResizeCall.interpolation =
      some Interp.interLinear ∧
    Interp.interLinear ≠ Interp.interArea := by
  exact ⟨rfl, by decide⟩

/-- C8 (amended): when the width exceeds the 1024-px cap, the output width is
exactly 1024 and the output height is the floor of `h*1024/w` (so the aspect
ratio is preserved within 1 px of rounding, expressed by the floor
characterization), using the resize default bilinear interpolation rather
than area-averaging; when the width is at most the cap no resize occurs. -/
theorem C8_downscale (h w : ℕ) :
    (1024 < w →
      enhancedPreprocessResize h w =
        some ⟨1024, h * 1024 / w, Interp.interLinear⟩ ∧
      (h * 1024 / w) * w ≤ h * 1024 ∧ h * 1024 < (h * 1024 / w + 1) * w) ∧
    (w ≤ 1024 → enhancedPreprocessResize h w = none) := by
  constructor
  · intro hw
    have hwpos : 0 < w := by omega
    refine ⟨?_, Nat.div_mul_le_self _ _, ?_⟩
    · unfold enhancedPreprocessResize
      rw [if_pos hw]
    · have hmod := Nat.mod_lt (h * 1024) hwpos
      calc h * 1024 = w * (h * 1024 / w) + h * 1024 % w := (Nat.div_add_mod _ _).symm
        _ < w * (h * 1024 / w) + w := Nat.add_lt_add_left hmod _
        _ = (h * 1024 / w + 1) * w := by ring
  · intro hw
    unfold enhancedPreprocessResize
    rw [if_neg (by omega)]

/-- Witness for C8 (amended) at a 2048 x 1000 image: width becomes exactly
1024 and height 500. -/
theorem C8_downscale_witness :
    enhancedPreprocessResize 1000 2048 = some ⟨1024, 500, Interp.interLinear⟩ ∧
    500 * 2048 ≤ 1000 * 1024 ∧ 1000 * 1024 < (500 + 1) * 2048 :=
  (C8_downscale 1000 2048).1 (by norm_num)

end LungDetection

namespace LungDetection

/-! ## Per-image analysis: `CovidImageAnalyzer.analyze_single_image`
(src/covid_analyzer.py lines 16-58) -/

/-- An exception raised during a per-image analysis: `nameError x` is
Python's NameError for the undefined name `x`, `valueError` the error
`load_image` raises for an unreadable file, and `libraryError` covers
exceptions from imaging-library calls. -/
inductive PyError : Type
  | nameError (name : String)
  | valueError
  | libraryError
deriving DecidableEq

/-- The per-image record appended to `self.results` (src/covid_analyzer.py
lines 41-49); the `image_size` and `image_path` fields, metadata copied
verbatim from the input, are omitted. -/
structure AnalysisResult : Type where
  category : String
  filename : String
  blob_detections : ℕ
  contour_detections : ℕ
  total_findings : ℕ
deriving DecidableEq

/-- The fallible steps of `analyze_single_image` taken as parameters:
loading the image, `enhanced_covid_preprocessing`, `detect_nodules`,
`analyze_regions`, and drawing plus displaying the detections. -/
structure PipelineStages : Type where
  load : Except PyError Grid
  preprocess : Grid → Except PyError Grid
  detect : Grid → Except PyError (List Component)
  regions : Grid → Except PyError (List Contour)
  drawAndDisplay : Grid → Except PyError Unit

/-- The body of the `try` block of `analyze_single_image` (src lines 20-38):
load, preprocess, run both detectors, draw and display, stopping at the
first exception, and produce the two detection counts. -/
def analyzeSingleImageRun (st : PipelineStages) : Except PyError (ℕ × ℕ) := do
  let original ← st.load
  let processed ← st.preprocess original
  let keypoints ← st.detect processed
  let contours ← st.regions processed
  let _ ← st.drawAndDisplay original
  pure (keypoints.length, contours.length)

/-- Shallow embedding of `analyze_single_image` (src/covid_analyzer.py lines
16-58): on success the analysis record is appended to `self.results` with
`total_findings` the sum of the two detection counts, and the triple
`(result_image, blobs, contours)` is returned (the annotated image modelled
as `some ()`); on any exception in the `try` block the handler prints the
error and returns `(None, 0, 0)` without appending. -/
def analyze_single_image (results : List AnalysisResult) (category filename : String)
    (st : PipelineStages) : List AnalysisResult × Option Unit × ℕ × ℕ :=
  match analyzeSingleImageRun st with
  | Except.ok (b, c) =>
      (results ++ [⟨category, filename, b, c, b + c⟩], some (), b, c)
  | Except.error _ => (results, none, 0, 0)

end LungDetection

namespace LungDetection

/-- C9: when any stage of the per-image analysis fails, the failure is
atomic: the session's results list is returned unchanged (no record is
appended), the returned counts are zero, and the returned image slot is
`none` — the failure marker distinguishing the outcome from a successful
zero-detection analysis, whose slot is `some`. -/
theorem C9_atomic_failure (results : List AnalysisResult) (category filename : String)
    (st : PipelineStages) (e : PyError)
    (hfail : analyzeSingleImageRun st = Except.error e) :
    analyze_single_image results category filename st = (results, none, 0, 0) := by
  unfold analyze_single_image
  rw [hfail]

/-- Witness for C9: a pipeline whose load step fails leaves an empty results
list empty and returns the failure triple. -/
theorem C9_atomic_failure_witness :
    analyze_single_image [] "COVID" "a.png"
      ⟨Except.error PyError.valueError, fun g => Except.ok g,
        fun _ => Except.ok [], fun _ => Except.ok [], fun _ => Except.ok ()⟩ =
      ([], none, 0, 0) :=
  C9_atomic_failure [] "COVID" "a.png"
    ⟨Except.error PyError.valueError, fun g => Except.ok g,
      fun _ => Except.ok [], fun _ => Except.ok [], fun _ => Except.ok ()⟩
    PyError.valueError rfl

/-! ## The two total-reporting code paths (C2) -/

/-- Lookup of a collection-valued local variable by name, yielding the
length of its value or a NameError for an undefined name. -/
def lookupLen (env : List (String × ℕ)) (x : String) : Except PyError ℕ :=
  match env.lookup x with
  | some v => Except.ok v
  | none => Except.error (PyError.nameError x)

/-- The collection-valued locals in scope at src/main.py line 63:
`keypoints` and `contours`, with the lengths of their values. -/
def processSingleImageLocals (keypoints contours : ℕ) : List (String × ℕ) :=
  [("keypoints", keypoints), ("contours", contours)]

/-- The expression `len(keypoints) + len(contections)` at src/main.py line
63, exactly as written in the source: the second name is `contections`,
which is not a defined local. -/
def totalDetectionsExpr (env : List (String × ℕ)) : Except PyError ℕ := do
  let a ← lookupLen env "keypoints"
  let b ← lookupLen env "contections"
  pure (a + b)

/-- C2: the record built by `analyze_single_image` reports
`total_findings = blobs + contours` as claimed, but the other
total-reporting path, `process_single_image` in src/main.py, evaluates
`len(keypoints) + len(contections)` whose undefined name `contections`
raises a NameError for every input — that path never reports the claimed
sum; its exception handler returns `(None, 0)` instead. -/
theorem C2_total_findings :
    (∀ (results : List AnalysisResult) (category filename : String)
        (st : PipelineStages) (b c : ℕ),
      analyzeSingleImageRun st = Except.ok (b, c) →
      analyze_single_image results category filename st =
        (results ++ [⟨category, filename, b, c, b + c⟩], some (), b, c)) ∧
    (∀ keypoints contours : ℕ,
      totalDetectionsExpr (processSingleImageLocals keypoints contours) =
        Except.error (PyError.nameError "contections")) := by
  constructor
  · intro results category filename st b c hok
    unfold analyze_single_image
    rw [hok]
  · intro k c
    rfl

/-- Witness for C2: a pipeline detecting 2 blob components and 0 contours
appends the record with `total_findings = 2 + 0`. -/
theorem C2_total_findings_witness :
    analyze_single_image [] "COVID" "a.png"
      ⟨Except.ok [], fun g => Except.ok g,
        fun _ => Except.ok [⟨9, 9, 9⟩, ⟨8, 8, 8⟩], fun _ => Except.ok [],
        fun _ => Except.ok ()⟩ =
      ([⟨"COVID", "a.png", 2, 0, 2 + 0⟩], some (), 2, 0) :=
  C2_total_findings.1 [] "COVID" "a.png"
    ⟨Except.ok [], fun g => Except.ok g,
      fun _ => Except.ok [⟨9, 9, 9⟩, ⟨8, 8, 8⟩], fun _ => Except.ok [],
      fun _ => Except.ok ()⟩
    2 0 rfl

end LungDetection

namespace LungDetection

/-! ## Category aggregation: `CovidImageAnalyzer.analyze_category`
(src/covid_analyzer.py lines 82-107) and `create_comparison_report`
(src/covid_analyzer.py lines 128-144) -/

/-- The outcome `analyze_single_image` produces for one image path of a
batch: either the returned blob and contour counts, or a caught failure. -/
inductive ImageOutcome : Type
  | success (blobs contours : ℕ)
  | failure (e : PyError)
deriving DecidableEq

/-- The `(blobs, contours)` pair returned for an outcome: the real counts on
success, `(0, 0)` on a caught exception (the except branch of
`analyze_single_image`). -/
def imageOutcomeCounts : ImageOutcome → ℕ × ℕ
  | ImageOutcome.success b c => (b, c)
  | ImageOutcome.failure _ => (0, 0)

/-- The per-category summary printed by `analyze_category`
(`CategorySummary` in the data model). -/
structure CategorySummary : Type where
  imagesAnalyzed : ℕ
  totalBlobs : ℕ
  totalContours : ℕ
  avgFindingsPerImage : ℚ
deriving DecidableEq

/-- Shallow embedding of the summary `analyze_category` prints for a
non-empty path list (src/covid_analyzer.py lines 93-105): one outcome per
path returned by the loader; the loop accumulates `total_blobs` and
`total_contours` from the returned pairs; the summary reports
`Images analyzed: len(image_paths)` and
`Average findings per image: (total_blobs + total_contours) / len(image_paths)`
— dividing by the full path count, failed loads included. -/
def analyze_category_summary (outcomes : List ImageOutcome) : CategorySummary :=
  let totalBlobs := (outcomes.map (fun o => (imageOutcomeCounts o).1)).sum
  let totalContours := (outcomes.map (fun o => (imageOutcomeCounts o).2)).sum
  { imagesAnalyzed := outcomes.length
    totalBlobs := totalBlobs
    totalContours := totalContours
    avgFindingsPerImage := ((totalBlobs : ℚ) + (totalContours : ℚ)) / (outcomes.length : ℚ) }

/-- The `Avg/Image` column of `create_comparison_report`
(src/covid_analyzer.py line 143): `total_findings / images_per_category`,
dividing by the requested per-category count. -/
def comparison_report_avg (total_findings images_per_category : ℕ) : ℚ :=
  (total_findings : ℚ) / (images_per_category : ℚ)

end LungDetection

namespace LungDetection

/-- C1 counterexample: a batch of 3 image paths where the second fails to
load.  The claim requires `images analyzed = 2` and the average computed
over 2 (here `(5 + 1) / 2 = 3`); the source reports `images analyzed = 3`
and divides by 3, giving average 2. -/
theorem C1_counterexample_failed_load :
    (analyze_category_summary
        [ImageOutcome.success 2 1, ImageOutcome.failure PyError.valueError,
          ImageOutcome.success 3 0]).imagesAnalyzed = 3 ∧
    (analyze_category_summary
        [ImageOutcome.success 2 1, ImageOutcome.failure PyError.valueError,
          ImageOutcome.success 3 0]).imagesAnalyzed ≠ 2 ∧
    (analyze_category_summary
        [ImageOutcome.success 2 1, ImageOutcome.failure PyError.valueError,
          ImageOutcome.success 3 0]).avgFindingsPerImage = 2 ∧
    (2 : ℚ) ≠ (5 + 1) / 2 := by
  have h3 : (analyze_category_summary
      [ImageOutcome.success 2 1, ImageOutcome.failure PyError.valueError,
        ImageOutcome.success 3 0]).imagesAnalyzed = 3 := rfl
  refine ⟨h3, by rw [h3]; norm_num, ?_, by norm_num⟩
  show ((5 : ℚ) + 1) / 3 = 2
  norm_num

/-- C1 (amended): the summary divides by the full count of paths the loader
returned, not by the count of successfully processed results: appending a
failed image leaves both totals unchanged (it contributes zero findings)
yet increments the reported `images analyzed` and the average's denominator;
`create_comparison_report` divides by the requested `images_per_category`. -/
theorem C1_summary_denominator (outcomes : List ImageOutcome) (e : PyError) :
    (analyze_category_summary (outcomes ++ [ImageOutcome.failure e])).imagesAnalyzed
      = outcomes.length + 1 ∧
    (analyze_category_summary (outcomes ++ [ImageOutcome.failure e])).totalBlobs
      = (analyze_category_summary outcomes).totalBlobs ∧
    (analyze_category_summary (outcomes ++ [ImageOutcome.failure e])).totalContours
      = (analyze_category_summary outcomes).totalContours ∧
    (analyze_category_summary (outcomes ++ [ImageOutcome.failure e])).avgFindingsPerImage
      = (((analyze_category_summary outcomes).totalBlobs : ℚ) +
          ((analyze_category_summary outcomes).totalContours : ℚ)) /
          ((outcomes.length : ℚ) + 1) ∧
    (∀ total requested : ℕ,
      comparison_report_avg total requested = (total : ℚ) / (requested : ℚ)) := by
  refine ⟨?_, ?_, ?_, ?_, fun total requested => rfl⟩
  · unfold analyze_category_summary
    simp
  · unfold analyze_category_summary
    simp [imageOutcomeCounts]
  · unfold analyze_category_summary
    simp [imageOutcomeCounts]
  · unfold analyze_category_summary
    simp [imageOutcomeCounts]

/-! ## Loader limit: `CovidDatasetLoader.get_all_category_images`
(src/covid_loader.py lines 54-66) -/

/-- Shallow embedding of `get_all_category_images` after the category lookup
(src/covid_loader.py lines 60-66): `images` is the category's file listing
and `imagesPath` its directory.  `if max_images:` is a Python truthiness
test, false for `None` and for `0`; only when it holds is the listing
truncated to `images[:max_images]`.  Each retained entry is then joined with
the directory path. -/
def get_all_category_images (imagesPath : String) (images : List String)
    (maxImages : Option ℕ) : List String :=
  let imgs := match maxImages with
    | some n => if n ≠ 0 then images.take n else images
    | none => images
  imgs.map (fun img => imagesPath ++ "/" ++ img)

end LungDetection

namespace LungDetection

/-- C10: with a positive `max_images = n` the loader returns the first
`min n total` joined paths of the category listing, but with `max_images`
equal to 0 or None the truthiness guard skips the slice and every image path
of the category is returned — requesting zero images yields all of them. -/
theorem C10_max_images_truthiness (imagesPath : String) (images : List String) :
    (∀ n : ℕ, 0 < n →
      get_all_category_images imagesPath images (some n) =
        (images.take n).map (fun img => imagesPath ++ "/" ++ img) ∧
      (get_all_category_images imagesPath images (some n)).length
        = min n images.length) ∧
    get_all_category_images imagesPath images (some 0) =
      images.map (fun img => imagesPath ++ "/" ++ img) ∧
    get_all_category_images imagesPath images none =
      images.map (fun img => imagesPath ++ "/" ++ img) := by
  refine ⟨?_, ?_, rfl⟩
  · intro n hn
    have hne : n ≠ 0 := Nat.pos_iff_ne_zero.mp hn
    have heq : get_all_category_images imagesPath images (some n) =
        (images.take n).map (fun img => imagesPath ++ "/" ++ img) := by
      show List.map (fun img => imagesPath ++ "/" ++ img)
          (if n ≠ 0 then images.take n else images) =
        List.map (fun img => imagesPath ++ "/" ++ img) (images.take n)
      rw [if_pos hne]
    refine ⟨heq, ?_⟩
    rw [heq, List.length_map, List.length_take]
  · show List.map (fun img => imagesPath ++ "/" ++ img)
        (if (0 : ℕ) ≠ 0 then images.take 0 else images) =
      List.map (fun img => imagesPath ++ "/" ++ img) images
    rw [if_neg (by norm_num)]

/-- Witness for C10 at a three-image listing with `max_images = 2`. -/
theorem C10_max_images_truthiness_witness :
    get_all_category_images "d" ["a", "b", "c"] (some 2) =
      (["a", "b", "c"].take 2).map (fun img => "d" ++ "/" ++ img) ∧
    (get_all_category_images "d" ["a", "b", "c"] (some 2)).length = min 2 3 :=
  (C10_max_images_truthiness "d" ["a", "b", "c"]).1 2 (by norm_num)

end LungDetection
